import Mathlib

/-!
Verification of the build-time library-discovery layer of ncurses-rs
(`build.rs`). The build script probes pkg-config for candidate library
names, falls back to trial linking, guards external command invocation
against NUL-containing arguments, and generates Rust constant files by
compiling and running small C introspection programs.

External effects (pkg-config queries, compiler invocations, executing the
compiled introspection binaries) are modelled as oracle parameters; the
decision logic of `build.rs` is translated function by function. File
system writes are modelled by returning the written content.
-/

namespace NcursesBuild

/-- Exit status of an external process: `std::process::ExitStatus`.
`exited c` means the process exited with code `c`; `signaled` means it was
terminated by a signal (so `code()` returns `None`). -/
inductive ExitStatus where
  | exited (code : Int)
  | signaled
deriving DecidableEq

/-- `ExitStatus::success()`: true exactly when the exit code is 0. -/
def ExitStatus.success : ExitStatus → Bool
  | ExitStatus.exited c => c = 0
  | ExitStatus.signaled => false

/-- `ExitStatus::code()`: the exit code, `none` when killed by a signal. -/
def ExitStatus.code : ExitStatus → Option Int
  | ExitStatus.exited c => some c
  | ExitStatus.signaled => none

/-- `pkg_config::Library` as used by `build.rs`: the constituent linkable
names (`libs`), linker search paths (`link_paths`) and include paths. -/
structure Library where
  libs : List String
  link_paths : List String
  include_paths : List String
deriving DecidableEq

/-- A cargo build-system line emitted by the build script: a
`cargo:rustc-link-lib=` directive or a `cargo:warning=` line. -/
inductive Line where
  | linkLib (name : String)
  | warning (msg : String)
deriving DecidableEq

/-- The NUL character, byte 0. -/
def nulChar : Char := Char.ofNat 0

/-- `has_null_byte` (build.rs line 572): whether the argument contains an
embedded NUL byte. -/
def has_null_byte (arg : String) : Bool :=
  arg.data.any (fun c => c = nulChar)

/-- `REPLACEMENT_FOR_ARG_THAT_HAS_NUL` (build.rs line 584): the string the
standard library substitutes for an argument that contains a NUL. -/
def REPLACEMENT_FOR_ARG_THAT_HAS_NUL : String := "<string-with-nul>"

/-- A `std::process::Command`: a program and its accumulated argument list. -/
structure Command where
  program : String
  args : List String
deriving DecidableEq

/-- What `std::process::Command::arg` stores for one argument: an argument
holding a NUL byte is replaced wholesale by `<string-with-nul>` (documented
in build.rs lines 566-568 and 582-583). -/
def replaceNul (a : String) : String :=
  if has_null_byte a then REPLACEMENT_FOR_ARG_THAT_HAS_NUL else a

/-- The unchecked `Command::arg`: appends the (possibly replaced) argument. -/
def Command.arg (c : Command) (a : String) : Command :=
  { c with args := c.args ++ [replaceNul a] }

/-- The unchecked `Command::args`: repeated `Command::arg`. -/
def Command.argsRaw (c : Command) : List String → Command
  | [] => c
  | a :: rest => (c.arg a).argsRaw rest

/-- One character of the Rust `{:?}` (Debug) rendering of an argument, for
the characters relevant here: NUL prints as backslash-0, quote and
backslash are escaped, anything else prints as itself. -/
def escDebugChar (c : Char) : List Char :=
  if c = nulChar then ['\\', '0']
  else if c = '"' then ['\\', '"']
  else if c = '\\' then ['\\', '\\']
  else [c]

/-- Rust `{:?}` rendering of an argument: quoted and escaped. -/
def rustDebug (s : String) : String :=
  "\"" ++ String.mk (s.data.flatMap escDebugChar) ++ "\""

/-- The panic message of `arg_checked` (build.rs lines 630-635). -/
def argCheckedMsg (arg : String) : String :=
  "Found arg '" ++ rustDebug arg ++
    "' that has at least one \\0 aka nul in it! This would've been replaced with '" ++
    REPLACEMENT_FOR_ARG_THAT_HAS_NUL ++ "'."

/-- `Command::arg_checked` (build.rs lines 625-638): panics (modelled as
`Except.error`) if the argument has a NUL byte, otherwise passes the
argument to `Command::arg`. -/
def Command.arg_checked (c : Command) (a : String) : Except String Command :=
  if has_null_byte a then Except.error (argCheckedMsg a)
  else Except.ok (c.arg a)

/-- `Command::args_checked` (build.rs lines 615-624): `arg_checked` over
each argument in order, stopping at the first offending one. -/
def Command.args_checked (c : Command) : List String → Except String Command
  | [] => Except.ok c
  | a :: rest =>
    match c.arg_checked a with
    | Except.error e => Except.error e
    | Except.ok c2 => c2.args_checked rest

/-- The panic message of `assert_no_nul_in_args` (build.rs lines 648-653);
`position` is the 1-based argument number. -/
def assertNoNulMsg (position : Nat) : String :=
  "Found arg number '" ++ toString position ++
    "' that has \\0 aka NUL in it! It got replaced with '" ++
    REPLACEMENT_FOR_ARG_THAT_HAS_NUL ++ "'."

/-- The `enumerate` loop body of `assert_no_nul_in_args` (build.rs lines
641-658): scan the stored arguments, and at the first one equal to the
replacement string panic with its 1-based position (`count + 1`). -/
def assertLoop : Nat → List String → Except String Unit
  | _, [] => Except.ok ()
  | count, arg :: rest =>
    if arg == REPLACEMENT_FOR_ARG_THAT_HAS_NUL then
      Except.error (assertNoNulMsg (count + 1))
    else assertLoop (count + 1) rest

/-- `Command::assert_no_nul_in_args` (build.rs lines 641-658). -/
def Command.assert_no_nul_in_args (c : Command) : Except String Command :=
  match assertLoop 0 c.args with
  | Except.error e => Except.error e
  | Except.ok _ => Except.ok c

/-- `Command::get_what_will_run` (build.rs lines 659-701): the program, the
argument count, and the quoted argument list. (All model arguments are
valid UTF-8, so the hex-escaping branch for broken arguments is not
exercised.) -/
def Command.get_what_will_run (c : Command) : String × Nat × String :=
  (c.program, c.args.length, "\"" ++ String.intercalate "\" \"" c.args ++ "\"")

/-- The panic message of `status_or_panic` (build.rs lines 709-712). -/
def statusPanicMsg (c : Command) (err : String) : String :=
  "Failed to run compilation command '" ++ c.get_what_will_run.1 ++
    "' with '" ++ toString c.get_what_will_run.2.1 ++ "' args: '" ++
    c.get_what_will_run.2.2 ++ "', reason: '" ++ err ++ "'"

/-- `Command::status_or_panic` (build.rs lines 705-714): run the command
through the oracle `run`; an OS-level failure to execute becomes a panic
carrying the full command line. -/
def Command.status_or_panic (run : Command → Except String ExitStatus)
    (c : Command) : Except String ExitStatus :=
  match run c with
  | Except.error err => Except.error (statusPanicMsg c err)
  | Except.ok st => Except.ok st

/-- The `how` part of the `success_or_panic` message (build.rs 596-601). -/
def compilerFailedHow (st : ExitStatus) : String :=
  match st.code with
  | some code => " with exit code " ++ toString code
  | none => ", was terminated by a signal"

/-- The panic message of `success_or_panic` (build.rs lines 602-609). -/
def compilerFailedMsg (st : ExitStatus) : String :=
  "Compiler failed" ++ compilerFailedHow st ++
    ". Is ncurses installed? pkg-config or pkgconf too? it's 'ncurses-devel' on Fedora; run `nix-shell` first, on NixOS. Or maybe it failed for different reasons which are seen in the errored output above."

/-- `Command::success_or_panic` (build.rs lines 588-611): logs, runs
`assert_no_nul_in_args`, then `status_or_panic`; a non-success exit status
becomes a panic with the remediation message. (`show_what_will_run` only
logs to stderr and is omitted.) -/
def Command.success_or_panic (run : Command → Except String ExitStatus)
    (c : Command) : Except String ExitStatus :=
  match c.assert_no_nul_in_args with
  | Except.error e => Except.error e
  | Except.ok c2 =>
    match Command.status_or_panic run c2 with
    | Except.error e => Except.error e
    | Except.ok exit_status =>
      if exit_status.success then Except.ok exit_status
      else Except.error (compilerFailedMsg exit_status)

/-- `find_library` (build.rs lines 95-102): probe each candidate name in
order through the pkg-config oracle, returning the first hit. -/
def find_library (probe : String → Option Library) : List String → Option Library
  | [] => none
  | name :: rest =>
    match probe name with
    | some lib => some lib
    | none => find_library probe rest

/-- `NCURSES_LIB_NAMES` (build.rs lines 51-55), as a function of the
compile-time `IS_WIDE` flag. -/
def NCURSES_LIB_NAMES (is_wide : Bool) : List String :=
  if is_wide then ["ncursesw5", "ncursesw"] else ["ncurses5", "ncurses"]

/-- `TINFO_LIB_NAMES` (build.rs lines 69-86). -/
def TINFO_LIB_NAMES (is_wide : Bool) : List String :=
  if is_wide then ["tinfow5", "tinfow", "tinfo"] else ["tinfo5", "tinfo"]

/-- `Path::new(dir).join(fname)` on Unix. -/
def pathJoin (dir fname : String) : String := dir ++ "/" ++ fname

/-- The `-L` linker search-dir arguments collected from the resolved
ncurses library (build.rs lines 235-244 and 327-337). -/
def linker_searchdir_args (ncurses_lib : Option Library) : List String :=
  match ncurses_lib with
  | none => []
  | some lib => lib.link_paths.flatMap (fun p => ["-L", p])

/-- The compiler command built by `try_link` (build.rs lines 259-264):
`-o <out_bin> <out_src> -l <lib_name> <search dirs>`, each argument after
`-o` added through the checked entry points. -/
def try_link_command (compiler : Command) (out_dir lib_name : String)
    (ncurses_lib : Option Library) : Except String Command :=
  match (compiler.arg "-o").arg_checked
      (pathJoin out_dir ("try_link_with_" ++ lib_name)) with
  | Except.error e => Except.error e
  | Except.ok c =>
    match c.arg_checked (pathJoin out_dir ("try_link_with_" ++ lib_name ++ ".c")) with
    | Except.error e => Except.error e
    | Except.ok c =>
      match c.args_checked ["-l", lib_name] with
      | Except.error e => Except.error e
      | Except.ok c => c.args_checked (linker_searchdir_args ncurses_lib)

/-- `try_link` (build.rs lines 205-287): build the trial command, run the
compiler through `status_or_panic`, and report whether linking succeeded.
(Writing and deleting the trivial `int main` source file and deleting the
trial binary are file-system effects with no bearing on the result and are
omitted.) -/
def try_link (run : Command → Except String ExitStatus) (compiler : Command)
    (out_dir lib_name : String) (ncurses_lib : Option Library) :
    Except String Bool :=
  match try_link_command compiler out_dir lib_name ncurses_lib with
  | Except.error e => Except.error e
  | Except.ok c =>
    match Command.status_or_panic run c with
    | Except.error e => Except.error e
    | Except.ok exit_status => Except.ok exit_status.success

/-- The diagnostic warning of the tinfo fallback loop (build.rs line 160). -/
def tinfoWarning (name : String) : String :=
  "Found tinfo fallback '" ++ name ++ "'"

/-- The tinfo fallback loop of `main` (build.rs lines 158-166): try each
candidate in order; at the first that links, emit the warning and the
linker directive and stop. -/
def tinfo_fallback_loop (try_one : String → Except String Bool) :
    List String → Except String (List Line)
  | [] => Except.ok []
  | name :: rest =>
    match try_one name with
    | Except.error e => Except.error e
    | Except.ok true =>
      Except.ok [Line.warning (tinfoWarning name), Line.linkLib name]
    | Except.ok false => tinfo_fallback_loop try_one rest

/-- The tinfo fallback loop with `try_one` instantiated to the real
`try_link`, as `main` does (build.rs lines 158-166). -/
def main_tinfo_fallback (run : Command → Except String ExitStatus)
    (compiler : Command) (out_dir : String) (ncurses_lib : Option Library)
    (names : List String) : Except String (List Line) :=
  tinfo_fallback_loop
    (fun each => try_link run compiler out_dir each ncurses_lib) names

/-- Substring containment on character lists: does `hay` contain `needle`
as a contiguous segment? (Rust `str::contains` with a string pattern.) -/
def listContainsSub (hay needle : List Char) : Bool :=
  match hay with
  | [] => needle.isEmpty
  | _ :: t => needle.isPrefixOf hay || listContainsSub t needle

/-- Rust `s.contains(sub)` for string slices. -/
def strContains (s sub : String) : Bool := listContainsSub s.data sub.data

/-- `substring_to_find` (build.rs line 500): what identifies the
terminal-control constituent among the pkg-config lib names. -/
def substring_to_find : String := "curses"

/-- The joined `pkg-config --libs` command list of the warning in
`get_ncurses_lib_name` (build.rs lines 514-518). -/
def repeated_pkg_config_command (is_wide : Bool) : String :=
  String.intercalate "` or `"
    ((NCURSES_LIB_NAMES is_wide).map (fun name => "pkg-config --libs " ++ name))

/-- The warning emitted when no constituent name contains `curses`
(build.rs lines 521-525). -/
def notAmongWarning (is_wide : Bool) : String :=
  "pkg_config reported that it found the ncurses libs but the substring '" ++
    substring_to_find ++
    "' was not among them, ie. in the output of the shell command(s) eg. `" ++
    repeated_pkg_config_command is_wide ++ "`"

/-- The warning emitted when pkg-config found no ncurses library at all
(build.rs line 542). -/
def fallbackWarning (what_lib : String) : String :=
  "Using fallback lib name '" ++ what_lib ++
    "' but if compilation fails below(like when linking ex_5 with 'menu' feature), that is why. It's likely you have not installed one of ['pkg-config' or 'pkgconf'], and/or 'ncurses' (it's package 'ncurses-devel' on Fedora). This seems to work fine on FreeBSD 14 regardless, however to not see this warning and to ensure 100% compatibility(on any OS) be sure to install, on FreeBSD, at least `pkgconf` if not both ie. `# pkg install ncurses pkgconf`."

/-- `get_ncurses_lib_name` (build.rs lines 488-551): the chosen primary
library name together with the cargo lines this function itself prints.
The environment override wins; else with a resolved library the first
constituent containing `curses` is chosen and nothing is re-printed
(`already_printed`); else the last configured candidate is chosen with a
warning, and the final `cargo:rustc-link-lib=` line is printed whenever
`already_printed` is false. -/
def get_ncurses_lib_name (env_lib : Option String) (is_wide : Bool)
    (ncurses_lib : Option Library) : String × List Line :=
  match env_lib with
  | some value => (value, [Line.linkLib value])
  | none =>
    match ncurses_lib with
    | some lib =>
      match lib.libs.find? (fun s => strContains s substring_to_find) with
      | some found => (found, [])
      | none =>
        let what_lib := (NCURSES_LIB_NAMES is_wide).getLastD ""
        (what_lib, [Line.warning (notAmongWarning is_wide), Line.linkLib what_lib])
    | none =>
      let what_lib := (NCURSES_LIB_NAMES is_wide).getLastD ""
      (what_lib,
        [Line.warning (fallbackWarning what_lib), Line.linkLib what_lib])

/-- The `cargo:rustc-link-lib=` lines the pkg-config capability itself
prints when a probe succeeds: one per constituent name (documented in
build.rs lines 494-506; the capability is external to the repository and
is modelled from that documentation). -/
def probe_emissions (ncurses_lib : Option Library) : List Line :=
  match ncurses_lib with
  | none => []
  | some lib => lib.libs.map Line.linkLib

/-- All `cargo` lines bearing on the primary library name in one build:
the pkg-config capability's own emissions followed by what
`get_ncurses_lib_name` prints. -/
def primary_link_lines (env_lib : Option String) (is_wide : Bool)
    (ncurses_lib : Option Library) : List Line :=
  probe_emissions ncurses_lib ++ (get_ncurses_lib_name env_lib is_wide ncurses_lib).2

/-- Is this line a `cargo:rustc-link-lib=` directive for `name`? -/
def isLinkLibFor (name : String) : Line → Bool
  | Line.linkLib n => n == name
  | Line.warning _ => false

/-- How many `cargo:rustc-link-lib=` directives for `name` a line list holds. -/
def countLinkLib (lines : List Line) (name : String) : Nat :=
  lines.countP (isLinkLibFor name)

/-- Captured output of an executed process (`std::process::Output`):
exit status and the raw stdout bytes. -/
structure ProcOutput where
  status : ExitStatus
  stdout : List Nat
deriving DecidableEq

/-- The panic message when executing a generated binary fails
(build.rs line 369 and 455). -/
def execFailMsg (bin_full err : String) : String :=
  "Executing '" ++ bin_full ++ "' failed, reason: '" ++ err ++ "'"

/-- The compiler command built by `gen_rs` (build.rs lines 358-363):
`-o <bin_full> <source_c_file> -l <lib_name> <search dirs>`. -/
def gen_rs_command (compiler : Command) (bin_full source_c_file lib_name : String)
    (ncurses_lib : Option Library) : Except String Command :=
  match (compiler.arg "-o").arg_checked bin_full with
  | Except.error e => Except.error e
  | Except.ok c =>
    match c.arg_checked source_c_file with
    | Except.error e => Except.error e
    | Except.ok c =>
      match c.args_checked ["-l", lib_name] with
      | Except.error e => Except.error e
      | Except.ok c => c.args_checked (linker_searchdir_args ncurses_lib)

/-- `gen_rs` (build.rs lines 309-390): compile the introspection C source
(fatal on any compile failure, via `success_or_panic`), execute the
resulting binary through the `exec` oracle (fatal if execution fails), and
write the captured stdout verbatim to the generated Rust file. The result
is the path of the generated file and the exact bytes written to it.
(`cc::Build` configuration — include paths, environment flags — happens
before `try_get_compiler` and is abstracted into the `compiler` command;
`File::create`/`write_all` are modelled by the returned content.) -/
def gen_rs (run : Command → Except String ExitStatus)
    (exec : String → Except String ProcOutput)
    (compiler : Command) (out_dir source_c_file out_bin_fname gen_rust_file : String)
    (ncurses_lib : Option Library) (lib_name : String) :
    Except String (String × List Nat) :=
  match gen_rs_command compiler (pathJoin out_dir out_bin_fname)
      source_c_file lib_name ncurses_lib with
  | Except.error e => Except.error e
  | Except.ok c =>
    match Command.success_or_panic run c with
    | Except.error e => Except.error e
    | Except.ok _ =>
      match exec (pathJoin out_dir out_bin_fname) with
      | Except.error err =>
        Except.error (execFailMsg (pathJoin out_dir out_bin_fname) err)
      | Except.ok consts =>
        Except.ok (pathJoin out_dir gen_rust_file, consts.stdout)

/-- The build signal enabling 64-bit chtype support (build.rs line 419). -/
def wide_chtype_line : String := "cargo:rustc-cfg=feature=\"wide_chtype\""

/-- The build signal for mouse protocol version 1 (build.rs line 426). -/
def mouse_v1_line : String := "cargo:rustc-cfg=feature=\"mouse_v1\""

/-- The message of the C assertion in the chtype probe (build.rs line 422). -/
def chtypeAssertMsg : String := "unsupported size for chtype"

/-- The C program written by `check_chtype_size` (build.rs lines 408-431),
translated from its embedded source text: with `chtype_bits` the value of
`sizeof(chtype)*CHAR_BIT` and `mouse_version` the value of
`NCURSES_MOUSE_VERSION` (none when undefined), the program prints the
wide-chtype signal when the width is 64, aborts via `assert` when it is
neither 64 nor 32 (printing nothing), and then prints the mouse-v1 signal
when the compile-time mouse version equals 1. -/
def chtype_size_program (chtype_bits : Nat) (mouse_version : Option Int) :
    Except String (List String) :=
  if chtype_bits = 64 then
    Except.ok ([wide_chtype_line] ++
      (if mouse_version = some 1 then [mouse_v1_line] else []))
  else if chtype_bits = 32 then
    Except.ok (if mouse_version = some 1 then [mouse_v1_line] else [])
  else
    Except.error chtypeAssertMsg

/-! ## Helper lemmas -/

/-- `find_library` skips a block of candidates the probe rejects. -/
theorem find_library_append_none (probe : String → Option Library) :
    ∀ (pre rest : List String), (∀ m ∈ pre, probe m = none) →
      find_library probe (pre ++ rest) = find_library probe rest := by
  intro pre
  induction pre with
  | nil => intro rest _; rfl
  | cons a t ih =>
    intro rest h
    have ha : probe a = none := h a (List.mem_cons_self a t)
    simp only [List.cons_append, find_library, ha]
    exact ih rest (fun m hm => h m (List.mem_cons_of_mem a hm))

/-- `find_library` returns `none` when the probe rejects every candidate. -/
theorem find_library_all_none (probe : String → Option Library) :
    ∀ (names : List String), (∀ m ∈ names, probe m = none) →
      find_library probe names = none := by
  intro names
  induction names with
  | nil => intro _; rfl
  | cons a t ih =>
    intro h
    have ha : probe a = none := h a (List.mem_cons_self a t)
    simp only [find_library, ha]
    exact ih (fun m hm => h m (List.mem_cons_of_mem a hm))

/-! ## Claims -/

/-- C1: for every non-empty candidate name list, `find_library` returns the
probe's resolved library for the first candidate the pkg-config metadata
capability accepts (so never a later candidate when an earlier one
succeeds), and returns `none` when every candidate is rejected. -/
theorem find_library_first_match (probe : String → Option Library)
    (names : List String) (hne : names ≠ []) :
    (∀ pre name post, names = pre ++ name :: post →
        (∀ m ∈ pre, probe m = none) → (probe name).isSome →
        find_library probe names = probe name) ∧
    ((∀ m ∈ names, probe m = none) → find_library probe names = none) := by
  constructor
  · intro pre name post hdec hpre hsome
    subst hdec
    rw [find_library_append_none probe pre (name :: post) hpre]
    cases hp : probe name with
    | none => rw [hp] at hsome; simp at hsome
    | some lib => simp [find_library, hp]
  · exact find_library_all_none probe names

/-- Witness for C1: the probe rejects `ncursesw5` and accepts `ncursesw`;
`find_library` returns the `ncursesw` library. -/
theorem find_library_first_match_witness :
    find_library
        (fun n => if n = "ncursesw" then some (Library.mk ["ncursesw"] [] []) else none)
        ["ncursesw5", "ncursesw"] = some (Library.mk ["ncursesw"] [] []) := by
  have h :=
    (find_library_first_match
        (fun n => if n = "ncursesw" then some (Library.mk ["ncursesw"] [] []) else none)
        ["ncursesw5", "ncursesw"] (by simp)).1
      ["ncursesw5"] "ncursesw" [] rfl
      (by intro m hm; simp only [List.mem_singleton] at hm; subst hm; decide)
      (by decide)
  exact h

/-- C2: the tinfo Link-Trial Fallback loop tries candidates strictly in
declared order and stops at the first for which `try_link` succeeds,
emitting the diagnostic warning and the linker directive for that candidate
only — whatever later candidates would have done. -/
theorem tinfo_fallback_first_match (run : Command → Except String ExitStatus)
    (compiler : Command) (out_dir : String) (ncurses_lib : Option Library)
    (pre : List String) (name : String) (post : List String)
    (hpre : ∀ m ∈ pre, try_link run compiler out_dir m ncurses_lib = Except.ok false)
    (hname : try_link run compiler out_dir name ncurses_lib = Except.ok true) :
    main_tinfo_fallback run compiler out_dir ncurses_lib (pre ++ name :: post) =
      Except.ok [Line.warning (tinfoWarning name), Line.linkLib name] := by
  unfold main_tinfo_fallback
  induction pre with
  | nil => simp only [List.nil_append, tinfo_fallback_loop, hname]
  | cons a t ih =>
    have ha := hpre a (List.mem_cons_self a t)
    simp only [List.cons_append, tinfo_fallback_loop, ha]
    exact ih (fun m hm => hpre m (List.mem_cons_of_mem a hm))

/-- Witness for C2: with a compiler oracle for which every candidate links,
candidate list `["a", "b"]` selects `"a"` (first-match, not best-match),
although `"b"` would also link. -/
theorem tinfo_fallback_first_match_witness :
    try_link (fun _ => Except.ok (ExitStatus.exited 0)) (Command.mk "cc" [])
        "/out" "b" none = Except.ok true ∧
    main_tinfo_fallback (fun _ => Except.ok (ExitStatus.exited 0)) (Command.mk "cc" [])
        "/out" none ["a", "b"] =
      Except.ok [Line.warning (tinfoWarning "a"), Line.linkLib "a"] :=
  ⟨rfl,
   tinfo_fallback_first_match (fun _ => Except.ok (ExitStatus.exited 0))
     (Command.mk "cc" []) "/out" none [] "a" ["b"] (by simp) rfl⟩

/-- The arguments stored by the unchecked `Command::args` path: each added
argument, NUL-containing ones replaced. -/
theorem argsRaw_args : ∀ (as : List String) (c : Command),
    (c.argsRaw as).args = c.args ++ as.map replaceNul := by
  intro as
  induction as with
  | nil => intro c; simp [Command.argsRaw]
  | cons a t ih =>
    intro c
    simp only [Command.argsRaw, ih, Command.arg, List.map_cons]
    simp [List.append_assoc]

/-- The `assert_no_nul_in_args` scan hits the first replacement marker and
reports its 1-based position. -/
theorem assertLoop_hit : ∀ (pre : List String) (k : Nat) (post : List String),
    (∀ b ∈ pre, (b == REPLACEMENT_FOR_ARG_THAT_HAS_NUL) = false) →
    assertLoop k (pre ++ REPLACEMENT_FOR_ARG_THAT_HAS_NUL :: post) =
      Except.error (assertNoNulMsg (k + pre.length + 1)) := by
  intro pre
  induction pre with
  | nil =>
    intro k post _
    simp [assertLoop]
  | cons b t ih =>
    intro k post h
    have hb := h b (List.mem_cons_self b t)
    simp only [List.cons_append, assertLoop, hb, Bool.false_eq_true, if_false,
      List.append_eq]
    rw [ih (k + 1) post (fun m hm => h m (List.mem_cons_of_mem b hm))]
    have harith : k + 1 + t.length + 1 = k + (b :: t).length + 1 := by
      simp only [List.length_cons]; omega
    rw [harith]

/-- A first-occurrence decomposition of a list around a member. -/
theorem exists_first_occurrence {a : String} : ∀ {l : List String}, a ∈ l →
    ∃ pre post, l = pre ++ a :: post ∧ ∀ b ∈ pre, (b == a) = false := by
  intro l
  induction l with
  | nil => intro h; cases h
  | cons x t ih =>
    intro h
    by_cases hx : x = a
    · subst hx; exact ⟨[], t, rfl, by simp⟩
    · rcases List.mem_cons.mp h with heq | hm
      · exact absurd heq.symm hx
      · obtain ⟨pre, post, heq, hpre⟩ := ih hm
        refine ⟨x :: pre, post, by rw [heq, List.cons_append], ?_⟩
        intro b hb
        rcases List.mem_cons.mp hb with rfl | hb2
        · exact beq_eq_false_iff_ne.mpr hx
        · exact hpre b hb2

/-- `success_or_panic` stops with the position-carrying guard panic, without
consulting the execution oracle, whenever the stored arguments hold the
replacement marker. -/
theorem success_or_panic_stops (c : Command) (pre post : List String)
    (heq : c.args = pre ++ REPLACEMENT_FOR_ARG_THAT_HAS_NUL :: post)
    (hpre : ∀ b ∈ pre, (b == REPLACEMENT_FOR_ARG_THAT_HAS_NUL) = false)
    (run : Command → Except String ExitStatus) :
    Command.success_or_panic run c = Except.error (assertNoNulMsg (pre.length + 1)) := by
  unfold Command.success_or_panic Command.assert_no_nul_in_args
  rw [heq, assertLoop_hit pre 0 post hpre]
  simp

/-- C3: for every argument list holding an argument with an embedded NUL
byte, the Command Execution Guard terminates the build before the external
process is ever invoked. Through the checked path (`args_checked` /
`arg_checked`) the panic carries the exact offending argument; through the
unchecked path the replacement marker lands in the stored arguments, and
`success_or_panic` (via `assert_no_nul_in_args`) then panics — for every
execution oracle, so the process is never run — identifying the 1-based
position of the marker. -/
theorem nul_guard_blocks (prog : String) (rawArgs : List String)
    (h : ∃ a ∈ rawArgs, has_null_byte a = true) :
    (∀ (c : Command) (pre : List String) (a : String) (post : List String),
        rawArgs = pre ++ a :: post →
        (∀ b ∈ pre, has_null_byte b = false) → has_null_byte a = true →
        c.args_checked rawArgs = Except.error (argCheckedMsg a)) ∧
    REPLACEMENT_FOR_ARG_THAT_HAS_NUL ∈ ((Command.mk prog []).argsRaw rawArgs).args ∧
    (∀ (pre post : List String),
        ((Command.mk prog []).argsRaw rawArgs).args =
          pre ++ REPLACEMENT_FOR_ARG_THAT_HAS_NUL :: post →
        (∀ b ∈ pre, (b == REPLACEMENT_FOR_ARG_THAT_HAS_NUL) = false) →
        ∀ run, Command.success_or_panic run ((Command.mk prog []).argsRaw rawArgs) =
          Except.error (assertNoNulMsg (pre.length + 1))) := by
  refine ⟨?_, ?_, ?_⟩
  · intro c pre a post hdec hpre ha
    subst hdec
    clear h
    induction pre generalizing c with
    | nil => simp [Command.args_checked, Command.arg_checked, ha]
    | cons b t ih =>
      have hb := hpre b (List.mem_cons_self b t)
      simp only [List.cons_append, Command.args_checked, Command.arg_checked, hb,
        Bool.false_eq_true, if_false]
      exact ih (c.arg b) (fun m hm => hpre m (List.mem_cons_of_mem b hm))
  · obtain ⟨a, hmem, hnul⟩ := h
    rw [argsRaw_args]
    have : replaceNul a = REPLACEMENT_FOR_ARG_THAT_HAS_NUL := by
      simp [replaceNul, hnul]
    simp only [List.nil_append]
    exact this ▸ List.mem_map_of_mem replaceNul hmem
  · intro pre post heq hpre run
    exact success_or_panic_stops _ pre post heq hpre run

/-- Witness for C3: argument list `["ok", "a\x00b"]` (second argument holds
a NUL). `args_checked` panics naming the exact argument; raw addition
followed by `success_or_panic` panics naming position 2, with the execution
oracle never consulted. -/
theorem nul_guard_blocks_witness :
    (Command.mk "cc" []).args_checked ["ok", "a\x00b"] =
      Except.error (argCheckedMsg "a\x00b") ∧
    Command.success_or_panic (fun _ => Except.ok (ExitStatus.exited 0))
        ((Command.mk "cc" []).argsRaw ["ok", "a\x00b"]) =
      Except.error (assertNoNulMsg 2) := by
  have h := nul_guard_blocks "cc" ["ok", "a\x00b"] ⟨"a\x00b", by simp, by decide⟩
  refine ⟨h.1 (Command.mk "cc" []) ["ok"] "a\x00b" [] rfl ?_ (by decide), ?_⟩
  · intro b hb; simp only [List.mem_singleton] at hb; subst hb; decide
  · exact h.2.2 ["ok"] [] rfl
      (by intro b hb; simp only [List.mem_singleton] at hb; subst hb; decide)
      (fun _ => Except.ok (ExitStatus.exited 0))

/-- C9: a command that runs but exits with status 43 makes the
fatal-on-failure path `success_or_panic` terminate with the compiler-failed
message: it contains "exit code 43" and the generic remediation text, and
equals the documented message in full — not a raw OS error. -/
theorem success_or_panic_exit_43 :
    Command.success_or_panic (fun _ => Except.ok (ExitStatus.exited 43))
        ((Command.mk "sh" []).argsRaw ["-c", "exit 43"]) =
      Except.error (compilerFailedMsg (ExitStatus.exited 43)) ∧
    strContains (compilerFailedMsg (ExitStatus.exited 43)) "exit code 43" = true ∧
    strContains (compilerFailedMsg (ExitStatus.exited 43)) "Is ncurses installed?" = true ∧
    compilerFailedMsg (ExitStatus.exited 43) =
      "Compiler failed with exit code 43. Is ncurses installed? pkg-config or pkgconf too? it's 'ncurses-devel' on Fedora; run `nix-shell` first, on NixOS. Or maybe it failed for different reasons which are seen in the errored output above." :=
  ⟨rfl, rfl, rfl, rfl⟩

/-- C10: for every command whose stored argument list holds an argument
exactly equal to the literal `<string-with-nul>` — which itself contains no
NUL byte — `assert_no_nul_in_args` inside `success_or_panic` panics with
the 1-based position of that argument, for every execution oracle: the
build terminates without running the process although no argument actually
contained a NUL (a false positive of the guard). -/
theorem replacement_literal_false_positive (c : Command)
    (hmem : REPLACEMENT_FOR_ARG_THAT_HAS_NUL ∈ c.args) :
    has_null_byte REPLACEMENT_FOR_ARG_THAT_HAS_NUL = false ∧
    (∃ pre post, c.args = pre ++ REPLACEMENT_FOR_ARG_THAT_HAS_NUL :: post ∧
      ∀ b ∈ pre, (b == REPLACEMENT_FOR_ARG_THAT_HAS_NUL) = false) ∧
    (∀ (pre post : List String),
        c.args = pre ++ REPLACEMENT_FOR_ARG_THAT_HAS_NUL :: post →
        (∀ b ∈ pre, (b == REPLACEMENT_FOR_ARG_THAT_HAS_NUL) = false) →
        ∀ run, Command.success_or_panic run c =
          Except.error (assertNoNulMsg (pre.length + 1))) := by
  refine ⟨by decide, ?_, ?_⟩
  · obtain ⟨pre, post, heq, hpre⟩ := exists_first_occurrence hmem
    exact ⟨pre, post, heq, hpre⟩
  · intro pre post heq hpre run
    exact success_or_panic_stops c pre post heq hpre run

/-- Witness for C10: the command `cc x <string-with-nul>` (no NUL anywhere)
panics at position 2 without the execution oracle being consulted. -/
theorem replacement_literal_false_positive_witness :
    Command.success_or_panic (fun _ => Except.ok (ExitStatus.exited 0))
        (Command.mk "cc" ["x", "<string-with-nul>"]) =
      Except.error (assertNoNulMsg 2) :=
  (replacement_literal_false_positive (Command.mk "cc" ["x", "<string-with-nul>"])
      (by decide)).2.2 ["x"] [] (by decide)
    (by intro b hb; simp only [List.mem_singleton] at hb; subst hb; decide)
    (fun _ => Except.ok (ExitStatus.exited 0))

/-- `success_or_panic` only returns statuses with a zero exit code. -/
theorem success_or_panic_ok_status (run : Command → Except String ExitStatus)
    (c : Command) (st : ExitStatus)
    (h : Command.success_or_panic run c = Except.ok st) : st.success = true := by
  unfold Command.success_or_panic at h
  split at h
  · exact Except.noConfusion h
  · split at h
    · exact Except.noConfusion h
    · split at h
      · rename_i hsucc
        cases h
        exact hsucc
      · exact Except.noConfusion h

/-- C4: any compile failure or any failure to run the compiled
introspection binary is fatal to `gen_rs` — whenever `gen_rs` completes
normally, the command was built, the compile step succeeded (with a zero
exit status) and the execution of the introspection binary succeeded. -/
theorem gen_rs_fatal (run : Command → Except String ExitStatus)
    (exec : String → Except String ProcOutput) (compiler : Command)
    (out_dir source_c_file out_bin_fname gen_rust_file : String)
    (ncurses_lib : Option Library) (lib_name : String) (r : String × List Nat)
    (h : gen_rs run exec compiler out_dir source_c_file out_bin_fname gen_rust_file
        ncurses_lib lib_name = Except.ok r) :
    ∃ c st outp,
      gen_rs_command compiler (pathJoin out_dir out_bin_fname) source_c_file
          lib_name ncurses_lib = Except.ok c ∧
      Command.success_or_panic run c = Except.ok st ∧ st.success = true ∧
      exec (pathJoin out_dir out_bin_fname) = Except.ok outp := by
  unfold gen_rs at h
  split at h
  · exact Except.noConfusion h
  · rename_i c hc
    split at h
    · exact Except.noConfusion h
    · rename_i st hst
      split at h
      · exact Except.noConfusion h
      · rename_i outp hout
        exact ⟨c, st, outp, hc, hst, success_or_panic_ok_status run c st hst, hout⟩

/-- Witness for C4: with oracles on which compilation and execution
succeed, `gen_rs` completes and the theorem recovers both successes. -/
theorem gen_rs_fatal_witness :
    ∃ c st outp,
      gen_rs_command (Command.mk "cc" []) (pathJoin "/out" "genconstants")
          "src/genconstants.c" "ncursesw" none = Except.ok c ∧
      Command.success_or_panic (fun _ => Except.ok (ExitStatus.exited 0)) c =
        Except.ok st ∧
      st.success = true ∧
      (fun _ : String =>
          (Except.ok (ProcOutput.mk (ExitStatus.exited 0) [42]) :
            Except String ProcOutput))
          (pathJoin "/out" "genconstants") = Except.ok outp :=
  gen_rs_fatal (fun _ => Except.ok (ExitStatus.exited 0))
    (fun _ => Except.ok (ProcOutput.mk (ExitStatus.exited 0) [42]))
    (Command.mk "cc" []) "/out" "src/genconstants.c" "genconstants"
    "raw_constants.rs" none "ncursesw" ("/out/raw_constants.rs", [42]) rfl

/-- C5: round-trip — whenever `gen_rs` completes, the bytes written to the
generated constants file are exactly the captured standard output of the
introspection binary, with no normalization, trimming, parsing or
reordering, and the file is the configured generated file. -/
theorem gen_rs_round_trip (run : Command → Except String ExitStatus)
    (exec : String → Except String ProcOutput) (compiler : Command)
    (out_dir source_c_file out_bin_fname gen_rust_file : String)
    (ncurses_lib : Option Library) (lib_name : String)
    (path : String) (content : List Nat)
    (h : gen_rs run exec compiler out_dir source_c_file out_bin_fname gen_rust_file
        ncurses_lib lib_name = Except.ok (path, content)) :
    path = pathJoin out_dir gen_rust_file ∧
    ∃ outp, exec (pathJoin out_dir out_bin_fname) = Except.ok outp ∧
      content = outp.stdout := by
  unfold gen_rs at h
  split at h
  · exact Except.noConfusion h
  · split at h
    · exact Except.noConfusion h
    · split at h
      · exact Except.noConfusion h
      · rename_i outp hout
        simp only [Except.ok.injEq, Prod.mk.injEq] at h
        exact ⟨h.1.symm, outp, hout, h.2.symm⟩

/-- Witness for C5: a run whose introspection binary prints the bytes
`[7, 10]`; the generated file holds exactly those bytes. -/
theorem gen_rs_round_trip_witness :
    "/out/menu_constants.rs" = pathJoin "/out" "menu_constants.rs" ∧
    ∃ outp, (fun _ : String =>
          (Except.ok (ProcOutput.mk (ExitStatus.exited 0) [7, 10]) :
            Except String ProcOutput))
        (pathJoin "/out" "genmenuconstants") = Except.ok outp ∧
      ([7, 10] : List Nat) = outp.stdout :=
  gen_rs_round_trip (fun _ => Except.ok (ExitStatus.exited 0))
    (fun _ => Except.ok (ProcOutput.mk (ExitStatus.exited 0) [7, 10]))
    (Command.mk "cc" []) "/out" "src/menu/genconstants.c" "genmenuconstants"
    "menu_constants.rs" none "ncursesw" "/out/menu_constants.rs" [7, 10] rfl

/-- C6: `get_ncurses_lib_name` selects the final primary library name as
the claim states: the environment override wins when set; otherwise with a
resolved library the constituent containing `curses` found by `find?` is
chosen (wherever it sits in the list); if no constituent matches, a warning
is emitted and the last configured candidate is returned; with no resolved
library at all, a warning is emitted and the last candidate is returned. -/
theorem get_ncurses_lib_name_selection (is_wide : Bool) :
    (∀ value ncurses_lib,
        (get_ncurses_lib_name (some value) is_wide ncurses_lib).1 = value) ∧
    (∀ lib found,
        lib.libs.find? (fun s => strContains s substring_to_find) = some found →
        (get_ncurses_lib_name none is_wide (some lib)).1 = found) ∧
    (∀ lib,
        lib.libs.find? (fun s => strContains s substring_to_find) = none →
        get_ncurses_lib_name none is_wide (some lib) =
          ((NCURSES_LIB_NAMES is_wide).getLastD "",
            [Line.warning (notAmongWarning is_wide),
             Line.linkLib ((NCURSES_LIB_NAMES is_wide).getLastD "")])) ∧
    get_ncurses_lib_name none is_wide none =
      ((NCURSES_LIB_NAMES is_wide).getLastD "",
        [Line.warning (fallbackWarning ((NCURSES_LIB_NAMES is_wide).getLastD "")),
         Line.linkLib ((NCURSES_LIB_NAMES is_wide).getLastD "")]) := by
  refine ⟨fun value ncurses_lib => rfl, ?_, ?_, rfl⟩
  · intro lib found hf
    simp [get_ncurses_lib_name, hf]
  · intro lib hf
    simp [get_ncurses_lib_name, hf]

/-- Witness for C6: constituents `["ncursesw", "tinfo"]` select `ncursesw`;
so do `["tinfo", "ncursesw"]` (position does not matter); the environment
override wins when set. -/
theorem get_ncurses_lib_name_selection_witness :
    (get_ncurses_lib_name none true (some (Library.mk ["ncursesw", "tinfo"] [] []))).1 =
      "ncursesw" ∧
    (get_ncurses_lib_name none true (some (Library.mk ["tinfo", "ncursesw"] [] []))).1 =
      "ncursesw" ∧
    (get_ncurses_lib_name (some "mylib") true none).1 = "mylib" :=
  ⟨(get_ncurses_lib_name_selection true).2.1 (Library.mk ["ncursesw", "tinfo"] [] [])
      "ncursesw" (by decide),
   (get_ncurses_lib_name_selection true).2.1 (Library.mk ["tinfo", "ncursesw"] [] [])
      "ncursesw" (by decide),
   (get_ncurses_lib_name_selection true).1 "mylib" none⟩

/-- C7 counterexample: with the environment override set to `ncursesw`
while the metadata capability resolved a library with constituent
`ncursesw` (for which it already emitted a linker directive),
`get_ncurses_lib_name` re-emits the directive: two directives for the final
primary name are emitted, not exactly one, and the override branch does not
skip re-emission. -/
theorem primary_link_lines_duplicate :
    (get_ncurses_lib_name (some "ncursesw") true
        (some (Library.mk ["ncursesw"] [] []))).1 = "ncursesw" ∧
    countLinkLib (primary_link_lines (some "ncursesw") true
        (some (Library.mk ["ncursesw"] [] []))) "ncursesw" = 2 :=
  ⟨rfl, rfl⟩

/-- C7 amended: when the environment override is unset (and the metadata
constituent list, if any, holds no duplicate names), exactly one linker
directive is emitted for the final primary library name — in the
constituent-matched branch the directive the metadata capability already
emitted is not re-emitted; in the scenario with the metadata capability
entirely absent, the last configured candidate is selected, the remediation
warning is emitted, and exactly one directive for that name is emitted. -/
theorem primary_link_lines_unique (is_wide : Bool) (ncurses_lib : Option Library)
    (hnodup : ∀ lib, ncurses_lib = some lib → lib.libs.Nodup) :
    countLinkLib (primary_link_lines none is_wide ncurses_lib)
        (get_ncurses_lib_name none is_wide ncurses_lib).1 = 1 ∧
    (ncurses_lib = none →
      (get_ncurses_lib_name none is_wide none).1 =
        (NCURSES_LIB_NAMES is_wide).getLastD "" ∧
      Line.warning (fallbackWarning ((NCURSES_LIB_NAMES is_wide).getLastD "")) ∈
        primary_link_lines none is_wide none) := by
  constructor
  · cases ncurses_lib with
    | none => cases is_wide <;> decide
    | some lib =>
      have hnd := hnodup lib rfl
      cases hf : lib.libs.find? (fun s => strContains s substring_to_find) with
      | some found =>
        have hmem : found ∈ lib.libs := List.mem_of_find?_eq_some hf
        simp only [primary_link_lines, probe_emissions, get_ncurses_lib_name, hf,
          countLinkLib, List.append_nil]
        rw [List.countP_map]
        exact List.count_eq_one_of_mem hnd hmem
      | none =>
        have hall := List.find?_eq_none.mp hf
        have hfb : strContains ((NCURSES_LIB_NAMES is_wide).getLastD "")
            substring_to_find = true := by
          cases is_wide <;> decide
        simp only [primary_link_lines, probe_emissions, get_ncurses_lib_name, hf,
          countLinkLib, List.countP_append]
        have h0 : List.countP
            (isLinkLibFor ((NCURSES_LIB_NAMES is_wide).getLastD ""))
            (lib.libs.map Line.linkLib) = 0 := by
          rw [List.countP_eq_zero]
          intro x hx
          obtain ⟨s, hs, rfl⟩ := List.mem_map.mp hx
          simp only [isLinkLibFor]
          intro hbeq
          have hsfb : s = (NCURSES_LIB_NAMES is_wide).getLastD "" := eq_of_beq hbeq
          exact hall s hs (by rw [hsfb]; exact hfb)
        rw [h0]
        simp [List.countP_cons, isLinkLibFor]
  · intro hnone
    subst hnone
    refine ⟨rfl, ?_⟩
    simp [primary_link_lines, probe_emissions, get_ncurses_lib_name]

/-- Witness for C7 (amended): constituents `["ncursesw", "tinfo"]`, no
override — exactly one directive for the selected name `ncursesw`. -/
theorem primary_link_lines_unique_witness :
    countLinkLib
        (primary_link_lines none true (some (Library.mk ["ncursesw", "tinfo"] [] [])))
        (get_ncurses_lib_name none true (some (Library.mk ["ncursesw", "tinfo"] [] []))).1 =
      1 :=
  (primary_link_lines_unique true (some (Library.mk ["ncursesw", "tinfo"] [] []))
      (by intro lib hl; cases hl; decide)).1

/-- C8: the Feature Probe program written by `check_chtype_size`, on the
discovered chtype width: at width 32 it succeeds and emits no wide-chtype
signal; at width 64 it succeeds and emits the wide-chtype signal exactly
once; at any other width it aborts with the assertion failure
`unsupported size for chtype`. -/
theorem chtype_size_program_spec (mouse_version : Option Int) :
    (∃ l, chtype_size_program 32 mouse_version = Except.ok l ∧
      wide_chtype_line ∉ l) ∧
    (∃ l, chtype_size_program 64 mouse_version = Except.ok l ∧
      l.count wide_chtype_line = 1) ∧
    (∀ width, width ≠ 32 → width ≠ 64 →
      chtype_size_program width mouse_version = Except.error chtypeAssertMsg) := by
  refine ⟨?_, ?_, ?_⟩
  · by_cases hm : mouse_version = some 1
    · exact ⟨[mouse_v1_line], by simp [chtype_size_program, hm], by decide⟩
    · exact ⟨[], by simp [chtype_size_program, hm], by simp⟩
  · by_cases hm : mouse_version = some 1
    · exact ⟨[wide_chtype_line, mouse_v1_line], by simp [chtype_size_program, hm],
        by decide⟩
    · exact ⟨[wide_chtype_line], by simp [chtype_size_program, hm], by decide⟩
  · intro width h32 h64
    simp [chtype_size_program, h32, h64]

/-- Witness for C8: width 16 (neither 32 nor 64) fails the build with the
assertion message. -/
theorem chtype_size_program_spec_witness :
    chtype_size_program 16 none = Except.error chtypeAssertMsg :=
  (chtype_size_program_spec none).2.2 16 (by decide) (by decide)

end NcursesBuild
